import Mathlib

/-
Verification of the Zephra synthetic atmospheric data generator
(frontend/src/services/DataProvider.ts).

The generator is deterministic: every random draw is obtained by evaluating
the sine-based function seededRandom at integer seed offsets.  Since
seededRandom(seed) = fract(sin(seed) * 10000) always lies in [0, 1), we embed
it as an abstract function `rand : ℤ → ℚ` together with the range hypothesis
`∀ s, 0 ≤ rand s ∧ rand s < 1` where a claim needs it.  All other arithmetic
of the generator is exact rational arithmetic, embedded over ℚ, with the
JavaScript rounding primitives made explicit.
-/

namespace Zephra

/-- JavaScript Math.round: round half toward positive infinity. -/
def jround (q : ℚ) : ℤ := ⌊q + 1/2⌋

/-- Wrap an integer to the signed 32-bit range, as JavaScript bitwise operators do. -/
def toInt32 (n : ℤ) : ℤ := (n + 2 ^ 31) % 2 ^ 32 - 2 ^ 31

/-- One step of hashCode: hash = ((hash << 5) - hash) + charCode, wrapped to 32 bits
by the final `hash = hash & hash`. -/
def hashStep (h : ℤ) (c : Char) : ℤ := toInt32 (toInt32 (h * 32) - h + c.toNat)

/-- DataProvider.hashCode: 32-bit rolling hash of a string, absolute value. -/
def hashCode (s : String) : ℤ := |s.data.foldl hashStep 0|

/-- Hour-of-day shown for hour index i: (now.getHours() - (23 - i) + 24) % 24. -/
def hourOfDay (nowHour i : ℤ) : ℤ := (nowHour - (23 - i) + 24) % 24

/-- The six pollutants handled by the generator. -/
inductive Pollutant where
  | pm25 | pm10 | o3 | no2 | so2 | co
  deriving DecidableEq

/-- One EPA breakpoint table entry: an AQI range paired with a concentration range. -/
structure Breakpoint where
  aqiLow : ℚ
  aqiHigh : ℚ
  concLow : ℚ
  concHigh : ℚ
  deriving DecidableEq, Inhabited

/-- The epaBreakpoints tables of generatePollutantValue (DataProvider.ts lines 154-195). -/
def epaBreakpoints : Pollutant → List Breakpoint
  | .pm25 =>
      [⟨0, 50, 0, 12⟩, ⟨51, 100, 12.1, 35.4⟩, ⟨101, 150, 35.5, 55.4⟩,
       ⟨151, 200, 55.5, 150.4⟩, ⟨201, 300, 150.5, 250.4⟩, ⟨301, 500, 250.5, 500.4⟩]
  | .pm10 =>
      [⟨0, 50, 0, 54⟩, ⟨51, 100, 55, 154⟩, ⟨101, 150, 155, 254⟩,
       ⟨151, 200, 255, 354⟩, ⟨201, 300, 355, 424⟩, ⟨301, 500, 425, 604⟩]
  | .o3 =>
      [⟨0, 50, 0, 54⟩, ⟨51, 100, 55, 70⟩, ⟨101, 150, 71, 85⟩,
       ⟨151, 200, 86, 105⟩, ⟨201, 300, 106, 200⟩]
  | .no2 =>
      [⟨0, 50, 0, 53⟩, ⟨51, 100, 54, 100⟩, ⟨101, 150, 101, 360⟩, ⟨151, 200, 361, 649⟩]
  | .so2 =>
      [⟨0, 50, 0, 35⟩, ⟨51, 100, 36, 75⟩, ⟨101, 150, 76, 185⟩]
  | .co =>
      [⟨0, 50, 0, 4.4⟩, ⟨51, 100, 4.5, 9.4⟩, ⟨101, 150, 9.5, 12.4⟩, ⟨151, 200, 12.5, 15.4⟩]

/-- The finalConc value of generatePollutantValue (DataProvider.ts lines 149-241):
find the breakpoint whose AQI range contains the target AQI (defaulting to the first
entry, as the source initialises targetBreakpoint to breakpoints[0]), interpolate a
base concentration, and scale it by a pollutant-specific diurnal factor and a random
meteorological factor. -/
def pollutantFinalConc (rand : ℤ → ℚ) (aqi : ℚ) (p : Pollutant) (seed hour : ℤ) : ℚ :=
  let random1 := rand seed
  let random2 := rand (seed + 10)
  let bps := epaBreakpoints p
  let target := (bps.find? (fun bp => decide (bp.aqiLow ≤ aqi ∧ aqi ≤ bp.aqiHigh))).getD bps.headI
  let aqiRange := target.aqiHigh - target.aqiLow
  let concRange := target.concHigh - target.concLow
  let aqiPosition := (aqi - target.aqiLow) / aqiRange
  let baseConc := target.concLow + aqiPosition * concRange
  let diurnalFactor : ℚ :=
    match p with
    | .pm25 | .pm10 =>
        if hour < 10 ∨ 18 < hour then 1.1 + random2 * 0.3 else 0.8 + random2 * 0.2
    | .no2 =>
        if (7 ≤ hour ∧ hour ≤ 9) ∨ (17 ≤ hour ∧ hour ≤ 19) then 1.3 + random2 * 0.2
        else 0.7 + random2 * 0.3
    | .o3 =>
        if 11 ≤ hour ∧ hour ≤ 16 then 1.4 + random2 * 0.3 else 0.6 + random2 * 0.2
    | .co =>
        if hour < 8 ∨ (17 ≤ hour ∧ hour ≤ 20) then 1.2 + random2 * 0.2
        else 0.8 + random2 * 0.2
    | .so2 =>
        if 9 ≤ hour ∧ hour ≤ 17 then 1.1 + random2 * 0.2 else 0.9 + random2 * 0.1
  baseConc * diurnalFactor * (0.8 + random1 * 0.4)

/-- generatePollutantValue (DataProvider.ts lines 149-249): the final concentration,
rounded to 2 decimal places for CO and to an integer otherwise, floored at 0. -/
def generatePollutantValue (rand : ℤ → ℚ) (aqi : ℚ) (p : Pollutant) (seed hour : ℤ) : ℚ :=
  let finalConc := pollutantFinalConc rand aqi p seed hour
  match p with
  | .co => max 0 ((jround (finalConc * 100) : ℚ) / 100)
  | _ => max 0 ((jround finalConc : ℤ) : ℚ)

/-- The breakpoints tables of the inner calculateAQI closure
(DataProvider.ts lines 296-303); entries are (concLow, concHigh, aqiLow, aqiHigh). -/
def innerBreakpoints : Pollutant → List Breakpoint
  | .pm25 => [⟨0, 50, 0, 12⟩, ⟨51, 100, 12.1, 35.4⟩, ⟨101, 150, 35.5, 55.4⟩, ⟨151, 200, 55.5, 150.4⟩]
  | .pm10 => [⟨0, 50, 0, 54⟩, ⟨51, 100, 55, 154⟩, ⟨101, 150, 155, 254⟩, ⟨151, 200, 255, 354⟩]
  | .o3 => [⟨0, 50, 0, 54⟩, ⟨51, 100, 55, 70⟩, ⟨101, 150, 71, 85⟩, ⟨151, 200, 86, 105⟩]
  | .no2 => [⟨0, 50, 0, 53⟩, ⟨51, 100, 54, 100⟩, ⟨101, 150, 101, 360⟩, ⟨151, 200, 361, 649⟩]
  | .so2 => [⟨0, 50, 0, 35⟩, ⟨51, 100, 36, 75⟩, ⟨101, 150, 76, 185⟩]
  | .co => [⟨0, 50, 0, 4.4⟩, ⟨51, 100, 4.5, 9.4⟩, ⟨101, 150, 9.5, 12.4⟩, ⟨151, 200, 12.5, 15.4⟩]

/-- The loop body of calculateAQI: scan the table in order; on the first entry whose
concentration range contains conc, return the rounded linear interpolation; if no
entry matches, fall back to 200 when conc > 200 and 50 otherwise
(DataProvider.ts lines 306-311). -/
def interpAQI (conc : ℚ) : List Breakpoint → ℤ
  | [] => if 200 < conc then 200 else 50
  | bp :: rest =>
      if bp.concLow ≤ conc ∧ conc ≤ bp.concHigh then
        jround ((bp.aqiHigh - bp.aqiLow) / (bp.concHigh - bp.concLow) * (conc - bp.concLow) + bp.aqiLow)
      else interpAQI conc rest

/-- calculateAQI (DataProvider.ts lines 295-312): concentration to AQI sub-index. -/
def calculateAQI (conc : ℚ) (p : Pollutant) : ℤ := interpAQI conc (innerBreakpoints p)

/-- The six pollutant concentrations generated for one hour, before the final
per-field display rounding (DataProvider.ts lines 287-292). -/
structure GenConcs where
  pm25 : ℚ
  pm10 : ℚ
  o3 : ℚ
  no2 : ℚ
  so2 : ℚ
  co : ℚ
  deriving DecidableEq

/-- Generated concentrations for hour index i: each pollutant from a base AQI of 100
at seed offsets hourSeed+1 .. hourSeed+6 (hourSeed = combinedSeed + i), with
pm10 clamped to be at least pm25. -/
def genConcs (rand : ℤ → ℚ) (combinedSeed i nowHour : ℤ) : GenConcs :=
  let hour := hourOfDay nowHour i
  let hourSeed := combinedSeed + i
  let pm25 := generatePollutantValue rand 100 .pm25 (hourSeed + 1) hour
  let pm10 := max pm25 (generatePollutantValue rand 100 .pm10 (hourSeed + 2) hour)
  let o3 := generatePollutantValue rand 100 .o3 (hourSeed + 3) hour
  let no2 := generatePollutantValue rand 100 .no2 (hourSeed + 4) hour
  let so2 := generatePollutantValue rand 100 .so2 (hourSeed + 5) hour
  let co := generatePollutantValue rand 100 .co (hourSeed + 6) hour
  { pm25 := pm25, pm10 := pm10, o3 := o3, no2 := no2, so2 := so2, co := co }

/-- The six per-pollutant AQI sub-indices (aqiValues, DataProvider.ts lines 315-322). -/
def subAQIs (g : GenConcs) : List ℤ :=
  [calculateAQI g.pm25 .pm25, calculateAQI g.pm10 .pm10, calculateAQI g.o3 .o3,
   calculateAQI g.no2 .no2, calculateAQI g.so2 .so2, calculateAQI g.co .co]

/-- Math.max(...aqiValues) (DataProvider.ts line 324). -/
def airAQI (g : GenConcs) : ℤ :=
  max (max (max (max (max (calculateAQI g.pm25 .pm25) (calculateAQI g.pm10 .pm10))
    (calculateAQI g.o3 .o3)) (calculateAQI g.no2 .no2)) (calculateAQI g.so2 .so2))
    (calculateAQI g.co .co)

/-- The numeric fields of one air-quality record as returned to the caller
(DataProvider.ts lines 326-335). -/
structure AirRecord where
  aqi : ℤ
  pm25 : ℚ
  pm10 : ℚ
  o3 : ℚ
  no2 : ℚ
  so2 : ℚ
  co : ℚ
  deriving DecidableEq

/-- One hourly air-quality record: composite AQI plus display-rounded concentrations
(pm25 and co to one decimal place, the rest to integers). -/
def airQualityRecord (rand : ℤ → ℚ) (combinedSeed i nowHour : ℤ) : AirRecord :=
  let g := genConcs rand combinedSeed i nowHour
  { aqi := airAQI g
    pm25 := (jround (g.pm25 * 10) : ℚ) / 10
    pm10 := (jround g.pm10 : ℚ)
    o3 := (jround g.o3 : ℚ)
    no2 := (jround g.no2 : ℚ)
    so2 := (jround g.so2 : ℚ)
    co := (jround (g.co * 10) : ℚ) / 10 }

/-- The seed offsets at which the air-quality record for hour index i consumes
seededRandom: generatePollutantValue at seed s reads rand s and rand (s + 10),
and the six pollutants use seeds combinedSeed + i + 1 .. combinedSeed + i + 6. -/
def airUsedSeeds (combinedSeed i : ℤ) : List ℤ :=
  [combinedSeed + i + 1, combinedSeed + i + 1 + 10,
   combinedSeed + i + 2, combinedSeed + i + 2 + 10,
   combinedSeed + i + 3, combinedSeed + i + 3 + 10,
   combinedSeed + i + 4, combinedSeed + i + 4 + 10,
   combinedSeed + i + 5, combinedSeed + i + 5 + 10,
   combinedSeed + i + 6, combinedSeed + i + 6 + 10]

/-- Per-city pollution factors (DataProvider.ts lines 105-112). -/
structure CityData where
  base : ℚ
  industrial : ℚ
  traffic : ℚ
  deriving DecidableEq

/-- locationFactors lookup with fallback to New York (DataProvider.ts line 114). -/
def locationFactor (loc : String) : CityData :=
  if loc = "New York" then ⟨55, 1.3, 1.4⟩
  else if loc = "Los Angeles" then ⟨70, 1.2, 1.6⟩
  else if loc = "Beijing" then ⟨120, 1.8, 1.3⟩
  else if loc = "Tokyo" then ⟨45, 1.1, 1.2⟩
  else if loc = "London" then ⟨40, 1.0, 1.3⟩
  else if loc = "Delhi" then ⟨150, 2.0, 1.5⟩
  else ⟨55, 1.3, 1.4⟩

/-- seasonalFactors (DataProvider.ts line 119): four entries for seasons 0-3. -/
def seasonalFactors : List ℚ := [1.4, 0.9, 0.8, 1.1]

/-- generateRealisticAQI (DataProvider.ts lines 98-147).  JavaScript array indexing
seasonalFactors[season] yields undefined when season is out of range, which then
poisons every subsequent arithmetic operation as NaN; we model a NaN result as
`none`.  When the seasonal factor exists the result is the clamped rounded product
of base, seasonal, daily, weekend and weather factors. -/
def generateRealisticAQI (rand : ℤ → ℚ) (seed hour dayOfYear : ℤ) (loc : String) : Option ℤ :=
  let random1 := rand seed
  let random2 := rand (seed + 1)
  let random3 := rand (seed + 2)
  let city := locationFactor loc
  let baseAQI := city.base + random1 * 30
  let season : ℤ := ⌊((dayOfYear : ℚ) - 1) / 91⌋
  match (if season < 0 then none else seasonalFactors.get? season.toNat) with
  | none => none
  | some sf =>
    let seasonalFactor := sf + (random2 - 0.5) * 0.3
    let dailyFactor : ℚ :=
      if 6 ≤ hour ∧ hour ≤ 9 then 1.3 + (random3 - 0.5) * 0.4
      else if 17 ≤ hour ∧ hour ≤ 20 then 1.2 + (random3 - 0.5) * 0.3
      else if 21 ≤ hour ∧ hour ≤ 6 then 1.1 + (random3 - 0.5) * 0.2
      else 0.8 + (random3 - 0.5) * 0.2
    let dayOfWeek := (dayOfYear + 3) % 7
    let weekendFactor : ℚ := if dayOfWeek = 0 ∨ dayOfWeek = 6 then 0.7 else 1
    let weatherVariation := 0.8 + random1 * 0.4
    some (max 5 (min 500 (jround (baseAQI * seasonalFactor * dailyFactor * weekendFactor * weatherVariation))))

/-- Forecast seed for day index i (DataProvider.ts line 535). -/
def forecastSeed (combinedSeed : ℤ) (i : ℕ) : ℤ := combinedSeed + 400 + i

/-- Predicted AQI for forecast day i (DataProvider.ts lines 536-554):
currentAqi scaled by trend, weather-variation and uncertainty factors,
rounded, then bounded into [10, 300]. -/
def forecastPredicted (rand : ℤ → ℚ) (combinedSeed : ℤ) (i : ℕ) (currentAqi : ℚ) : ℤ :=
  let fs := forecastSeed combinedSeed i
  let random1 := rand fs
  let random2 := rand (fs + 1)
  let uncertainty : ℚ := 1 + (i : ℚ) * 0.15
  let trendFactor := 0.9 + (random1 - 0.5) * 0.3
  let weatherVariation := 0.8 + random2 * 0.4
  max 10 (min 300 (jround (currentAqi * trendFactor * weatherVariation * uncertainty)))

/-- Forecast confidence for day i (DataProvider.ts lines 556-558):
Math.max(45, Math.round(95 - i*8 + (random1 - 0.5) * 10)). -/
def forecastConfidence (rand : ℤ → ℚ) (combinedSeed : ℤ) (i : ℕ) : ℤ :=
  max 45 (jround (95 - (i : ℚ) * 8 + (rand (forecastSeed combinedSeed i) - 0.5) * 10))

/-- Clamp as written in the specification: clamp(x, lo, hi) = min hi (max lo x). -/
def specClamp (lo hi x : ℤ) : ℤ := min hi (max lo x)

/-- The eight compass direction strings (DataProvider.ts line 383). -/
def compassDirections : List String := ["N", "NE", "E", "SE", "S", "SW", "W", "NW"]

/-- JavaScript array read arr[i]: undefined (none) when i is out of bounds. -/
def jsIndex (l : List String) (i : ℤ) : Option String :=
  if i < 0 then none else l.get? i.toNat

/-- Wind-direction compass index for weather hour i (DataProvider.ts lines 379-382):
a persistence draw plus a small change, clamped into [0, 7]. -/
def windDirectionIndex (rand : ℤ → ℚ) (combinedSeed i : ℤ) : ℤ :=
  let hourSeed := combinedSeed + 100 + i
  let random7 := rand (hourSeed + 6)
  let prevDirection : ℤ :=
    if 0 < i then ⌊rand (combinedSeed + 99 + i) * 8⌋ else ⌊random7 * 8⌋
  let directionChange : ℤ := ⌊(random7 - 0.5) * 3⌋
  max 0 (min 7 (prevDirection + directionChange))

/-- windDirection (DataProvider.ts line 383): compass array read at the clamped index. -/
def windDirection (rand : ℤ → ℚ) (combinedSeed i : ℤ) : Option String :=
  jsIndex compassDirections (windDirectionIndex rand combinedSeed i)

/-- The mutable DataProvider state: the default location and the cached daily seed. -/
structure ProviderState where
  currentLocation : String
  dailySeed : ℤ
  deriving DecidableEq

/-- setLocation (DataProvider.ts lines 580-582): replace the default location only. -/
def setLocation (st : ProviderState) (loc : String) : ProviderState :=
  { st with currentLocation := loc }

/-- The parts of the dashboard response modelled here: resolved location name,
24 air-quality records, 7 forecast records and the 24 hourly wind directions.
The remaining fields are either constant metadata or further series derived from
the same seeds by the same mechanisms. -/
structure Dashboard where
  location_name : String
  air_quality : List AirRecord
  forecast : List (Option ℤ × ℤ)
  wind_directions : List (Option String)

/-- getDashboardData (DataProvider.ts lines 260-578): resolve the location from the
optional argument as the JavaScript truthiness test `location || this.currentLocation`
does - a missing argument AND the falsy empty string both fall back to the stored
default - derive combinedSeed = dailySeed + hashCode(location), and generate every
series from it.  Each forecast day recomputes dayOfYear + i and then calls
generateRealisticAQI with (dayOfYear + i) - i, as the source does. -/
def getDashboardData (rand : ℤ → ℚ) (st : ProviderState) (nowHour dayOfYear : ℤ)
    (location : Option String) : Dashboard :=
  let currentLoc :=
    match location with
    | none => st.currentLocation
    | some loc => if loc = "" then st.currentLocation else loc
  let combinedSeed := st.dailySeed + hashCode currentLoc
  { location_name := currentLoc
    air_quality := (List.range 24).map (fun i => airQualityRecord rand combinedSeed i nowHour)
    forecast := (List.range 7).map (fun (i : ℕ) =>
      ((generateRealisticAQI rand combinedSeed nowHour (dayOfYear + (i : ℤ) - (i : ℤ)) currentLoc).map
        (fun c => forecastPredicted rand combinedSeed i (c : ℚ)),
       forecastConfidence rand combinedSeed i))
    wind_directions := (List.range 24).map (fun i => windDirection rand combinedSeed i) }

/-- The everywhere-zero random source; 0 is a legitimate seededRandom value. -/
def zeroRand : ℤ → ℚ := fun _ => 0

/-- A random source that agrees with zeroRand exactly on the seed offsets consumed
by the air-quality record for combinedSeed 0 and hour index 0, and differs elsewhere. -/
def zeroRandVariant : ℤ → ℚ := fun k => if k ∈ airUsedSeeds 0 0 then 0 else 1/2

/-- A random source giving minimal jitter on forecast day 0 and near-maximal jitter
on forecast day 1 (seed 401); all values lie in [0, 1). -/
def jitterRand : ℤ → ℚ := fun s => if s = 401 then 999/1000 else 0

/-! Basic facts about the JavaScript rounding primitive. -/

theorem jround_intCast (n : ℤ) : jround (n : ℚ) = n := by
  unfold jround
  rw [Int.floor_int_add]
  norm_num

theorem le_jround {n : ℤ} {x : ℚ} (h : (n : ℚ) - 1 / 2 ≤ x) : n ≤ jround x :=
  Int.le_floor.mpr (by linarith)

theorem jround_le {n : ℤ} {x : ℚ} (h : x < (n : ℚ) + 1 / 2) : jround x ≤ n := by
  have : jround x < n + 1 := Int.floor_lt.mpr (by push_cast; linarith)
  omega

theorem jround_add_one_le {a b : ℚ} (h : a + 1 ≤ b) : jround a + 1 ≤ jround b := by
  unfold jround
  have h2 : ⌊a + 1 / 2 + 1⌋ ≤ ⌊b + 1 / 2⌋ := Int.floor_mono (by linarith)
  rwa [Int.floor_add_one] at h2

theorem max_zero_intCast (m : ℤ) : max (0 : ℚ) ((m : ℤ) : ℚ) = ((max 0 m : ℤ) : ℚ) := by
  rw [Int.cast_max]; norm_num

theorem max_zero_cast_lt {m n : ℤ} (h0 : 0 ≤ m) (hmn : m < n) :
    max (0 : ℚ) (m : ℚ) < max (0 : ℚ) (n : ℚ) := by
  have hm : (0 : ℚ) ≤ (m : ℚ) := by exact_mod_cast h0
  have hn : (0 : ℚ) ≤ (n : ℚ) := by exact_mod_cast h0.trans hmn.le
  rw [max_eq_right hm, max_eq_right hn]
  exact_mod_cast hmn

theorem max6_mem (a b c d e f : ℤ) :
    max (max (max (max (max a b) c) d) e) f ∈ [a, b, c, d, e, f] := by
  simp only [List.mem_cons, List.not_mem_nil, or_false]
  omega

theorem max6_ge (a b c d e f : ℤ) :
    ∀ x ∈ [a, b, c, d, e, f], x ≤ max (max (max (max (max a b) c) d) e) f := by
  intro x hx
  simp only [List.mem_cons, List.not_mem_nil, or_false] at hx
  rcases hx with rfl | rfl | rfl | rfl | rfl | rfl <;> omega

/-- Claim C2: for every generated hourly air-quality record, the reported composite
AQI equals the maximum of the six per-pollutant AQIs obtained by feeding each of the
six generated concentrations back through the breakpoint interpolator calculateAQI;
it is a member of the list of sub-indices and is at least each of them. -/
theorem c2_composite_aqi_is_max (rand : ℤ → ℚ) (combinedSeed i nowHour : ℤ) :
    (airQualityRecord rand combinedSeed i nowHour).aqi ∈
      subAQIs (genConcs rand combinedSeed i nowHour) ∧
    ∀ x ∈ subAQIs (genConcs rand combinedSeed i nowHour),
      x ≤ (airQualityRecord rand combinedSeed i nowHour).aqi := by
  have haqi : (airQualityRecord rand combinedSeed i nowHour).aqi =
      airAQI (genConcs rand combinedSeed i nowHour) := rfl
  rw [haqi]
  unfold airAQI subAQIs
  exact ⟨max6_mem _ _ _ _ _ _, max6_ge _ _ _ _ _ _⟩

/-- The reported pm25 field (one-decimal rounding of an already integral value) is at
most the reported pm10 field, for any raw concentration draws x and y. -/
theorem report_pm_le (x y : ℚ) :
    ((jround (max 0 ((jround x : ℤ) : ℚ) * 10) : ℤ) : ℚ) / 10 ≤
      ((jround (max (max 0 ((jround x : ℤ) : ℚ)) (max 0 ((jround y : ℤ) : ℚ))) : ℤ) : ℚ) := by
  rw [max_zero_intCast (jround x), max_zero_intCast (jround y), ← Int.cast_max]
  rw [show ((max 0 (jround x) : ℤ) : ℚ) * 10 = ((max 0 (jround x) * 10 : ℤ) : ℚ) by
    push_cast; ring]
  rw [jround_intCast, jround_intCast]
  rw [show ((max 0 (jround x) * 10 : ℤ) : ℚ) / 10 = ((max 0 (jround x) : ℤ) : ℚ) by
    push_cast; ring]
  exact_mod_cast le_max_left (max 0 (jround x)) (max 0 (jround y))

/-- Claim C3: for every generated hourly air-quality record, the reported pm10 value
is at least the reported pm25 value (the pm10 draw is clamped by max with pm25 before
rounding, and both reported roundings preserve the order). -/
theorem c3_pm_ordering (rand : ℤ → ℚ) (combinedSeed i nowHour : ℤ) :
    (airQualityRecord rand combinedSeed i nowHour).pm25 ≤
      (airQualityRecord rand combinedSeed i nowHour).pm10 := by
  simp only [airQualityRecord, genConcs, generatePollutantValue.eq_def]
  exact report_pm_le _ _

/-- The calculateAQI scan is equivalent to List.find? followed by interpolation, with
the 200/50 fallback when no breakpoint entry contains the concentration. -/
theorem interpAQI_find_eq (conc : ℚ) (l : List Breakpoint) :
    interpAQI conc l =
      match l.find? (fun bp => decide (bp.concLow ≤ conc ∧ conc ≤ bp.concHigh)) with
      | some bp => jround ((bp.aqiHigh - bp.aqiLow) / (bp.concHigh - bp.concLow) *
          (conc - bp.concLow) + bp.aqiLow)
      | none => if 200 < conc then 200 else 50 := by
  induction l with
  | nil => rfl
  | cons bp rest ih =>
      by_cases h : bp.concLow ≤ conc ∧ conc ≤ bp.concHigh
      · rw [interpAQI, if_pos h, List.find?_cons_of_pos _ (by simpa using h)]
      · rw [interpAQI, if_neg h, List.find?_cons_of_neg _ (by simpa using h), ih]

/-- Claim C4 (amended): for a concentration inside some entry of the pollutant
breakpoint table, calculateAQI returns the rounded linear interpolation within the
first such entry; for a concentration outside all entries it returns 200 when the
concentration exceeds 200 and 50 otherwise (a fixed fallback, not a clamp to the
nearest table boundary). -/
theorem c4_interpolation_and_fallback (p : Pollutant) (conc : ℚ) :
    calculateAQI conc p =
      match (innerBreakpoints p).find? (fun bp => decide (bp.concLow ≤ conc ∧ conc ≤ bp.concHigh)) with
      | some bp => jround ((bp.aqiHigh - bp.aqiLow) / (bp.concHigh - bp.concLow) *
          (conc - bp.concLow) + bp.aqiLow)
      | none => if 200 < conc then 200 else 50 :=
  interpAQI_find_eq conc (innerBreakpoints p)

/-- Claim C4 counterexample: the o3 concentration 150 is above every entry of the o3
table (whose largest concHigh is 105), yet calculateAQI returns 50, not the top AQI
band value 200 required by the claim for concentrations above the table maximum. -/
theorem c4_counterexample :
    ((innerBreakpoints Pollutant.o3).all fun bp => decide (bp.concHigh < 150)) = true ∧
      calculateAQI 150 Pollutant.o3 = 50 := by
  constructor
  · norm_num [innerBreakpoints]
  · norm_num [calculateAQI, innerBreakpoints, interpAQI]

/-- Claim C5: the generator is specified to clamp every AQI to [5, 500], but on
dayOfYear = 365 (December 31) the season index floor((365-1)/91) = 4 reads past the
end of the four-entry seasonalFactors array, so the seasonal factor is undefined and
generateRealisticAQI propagates NaN instead of a clamped value: the result is not a
number in [5, 500] for any seed, hour or location. -/
theorem c5_day365_nan (rand : ℤ → ℚ) (seed hour : ℤ) (loc : String) :
    generateRealisticAQI rand seed hour 365 loc = none := by
  have hseason : ⌊((((365 : ℤ)) : ℚ) - 1) / 91⌋ = 4 := by norm_num
  simp only [generateRealisticAQI.eq_def, hseason]
  norm_num [seasonalFactors]
  rfl

/-- Claim C9: setLocation changes only the default location used by subsequent
getDashboardData calls made without an explicit location argument; the cached daily
seed is unchanged, and a no-argument call after setLocation uses the newly set name
as the location.  For any non-empty name the no-argument call after setLocation
produces exactly the dashboard of an explicit call with that name, and explicit
calls with a non-empty argument are unaffected by setLocation; the non-emptiness
guards reflect the JavaScript truthiness fallback, under which an explicit empty
string falls back to the stored default. -/
theorem c9_setLocation_frame (rand : ℤ → ℚ) (st : ProviderState) (nm : String)
    (nowHour dayOfYear : ℤ) :
    (setLocation st nm).dailySeed = st.dailySeed ∧
    (setLocation st nm).currentLocation = nm ∧
    (getDashboardData rand (setLocation st nm) nowHour dayOfYear none).location_name = nm ∧
    (nm ≠ "" → getDashboardData rand (setLocation st nm) nowHour dayOfYear none =
      getDashboardData rand st nowHour dayOfYear (some nm)) ∧
    (∀ arg : String, arg ≠ "" →
      getDashboardData rand (setLocation st nm) nowHour dayOfYear (some arg) =
        getDashboardData rand st nowHour dayOfYear (some arg)) := by
  refine ⟨rfl, rfl, rfl, ?_, ?_⟩
  · intro h
    simp [getDashboardData, setLocation, h]
  · intro arg h
    simp [getDashboardData, setLocation, h]

/-- Claim C9 witness: after setting the location to Tokyo, a no-argument call on a
New York state with daily seed 77 equals the explicit Tokyo call on the old state. -/
theorem c9_witness :
    getDashboardData zeroRand (setLocation ⟨"New York", 77⟩ "Tokyo") 10 200 none =
      getDashboardData zeroRand ⟨"New York", 77⟩ 10 200 (some "Tokyo") :=
  (c9_setLocation_frame zeroRand ⟨"New York", 77⟩ "Tokyo" 10 200).2.2.2.1 (by decide)

/-- A JavaScript read of the compass array at any index between 0 and 7 is defined
and yields one of the eight compass strings. -/
theorem jsIndex_compass (k : ℤ) (h0 : 0 ≤ k) (h7 : k ≤ 7) :
    jsIndex compassDirections k ∈ compassDirections.map some := by
  interval_cases k <;> decide

/-- Claim C10: the wind-direction compass index is clamped into [0, 7] before
indexing the 8-element direction array, so the array access is always in bounds and
windDirection is always one of the eight compass strings. -/
theorem c10_wind_direction_total (rand : ℤ → ℚ) (combinedSeed i : ℤ) :
    0 ≤ windDirectionIndex rand combinedSeed i ∧
    windDirectionIndex rand combinedSeed i ≤ 7 ∧
    windDirection rand combinedSeed i ∈ compassDirections.map some := by
  refine ⟨le_max_left 0 _, ?_, ?_⟩
  · exact max_le (by norm_num) (min_le_left 7 _)
  · exact jsIndex_compass _ (le_max_left 0 _) (max_le (by norm_num) (min_le_left 7 _))

/-- Claim C6: for every forecast day, predictedAqi equals
clamp(round(currentAqi * trendFactor * weatherVariation * uncertainty), 10, 300) with
trendFactor = 0.9 + (rand - 0.5) * 0.3, weatherVariation = 0.8 + rand * 0.4 and
uncertainty = 1 + i * 0.15, and confidence equals
clamp(round(95 - i * 8 + (rand - 0.5) * 10), 45, 100), the draws taken at the
forecast seed offsets; the upper confidence clamp at 100 is vacuous because the
jitter is strictly below +5. -/
theorem c6_forecast_formulas (rand : ℤ → ℚ) (hr : ∀ s, 0 ≤ rand s ∧ rand s < 1)
    (combinedSeed : ℤ) (i : ℕ) (currentAqi : ℚ) :
    forecastPredicted rand combinedSeed i currentAqi =
      specClamp 10 300 (jround (currentAqi * (0.9 + (rand (forecastSeed combinedSeed i) - 0.5) * 0.3) *
        (0.8 + rand (forecastSeed combinedSeed i + 1) * 0.4) * (1 + (i : ℚ) * 0.15))) ∧
    forecastConfidence rand combinedSeed i =
      specClamp 45 100 (jround (95 - (i : ℚ) * 8 + (rand (forecastSeed combinedSeed i) - 0.5) * 10)) := by
  constructor
  · simp only [forecastPredicted, specClamp]
    omega
  · have hub : jround (95 - (i : ℚ) * 8 + (rand (forecastSeed combinedSeed i) - 0.5) * 10) ≤ 100 := by
      apply jround_le
      have h1 := (hr (forecastSeed combinedSeed i)).2
      have h2 : (0 : ℚ) ≤ (i : ℚ) := Nat.cast_nonneg i
      push_cast
      nlinarith
    simp only [forecastConfidence, specClamp]
    omega

/-- Claim C6 witness: the forecast formulas evaluated at the zero random source,
combinedSeed 0, day 0 and currentAqi 100. -/
theorem c6_witness :
    forecastPredicted zeroRand 0 0 100 =
      specClamp 10 300 (jround ((100 : ℚ) * (0.9 + (zeroRand (forecastSeed 0 0) - 0.5) * 0.3) *
        (0.8 + zeroRand (forecastSeed 0 0 + 1) * 0.4) * (1 + ((0 : ℕ) : ℚ) * 0.15))) ∧
    forecastConfidence zeroRand 0 0 =
      specClamp 45 100 (jround (95 - ((0 : ℕ) : ℚ) * 8 + (zeroRand (forecastSeed 0 0) - 0.5) * 10)) :=
  c6_forecast_formulas zeroRand (fun s => ⟨le_refl 0, by norm_num [zeroRand]⟩) 0 0 100

/-- Claim C7 (amended): forecast confidence can rise by at most 2 between a nearer
and a farther day: for i1 < i2 < 7, confidence(i1) ≥ confidence(i2) - 2 (the -8 per
day slope dominates the ±5 rounding jitter only up to that slack). -/
theorem c7_confidence_jitter_bound (rand : ℤ → ℚ) (hr : ∀ s, 0 ≤ rand s ∧ rand s < 1)
    (combinedSeed : ℤ) (i1 i2 : ℕ) (h12 : i1 < i2) (h7 : i2 < 7) :
    forecastConfidence rand combinedSeed i2 - 2 ≤ forecastConfidence rand combinedSeed i1 := by
  have hlow : (90 : ℤ) - 8 * (i1 : ℤ) ≤
      jround (95 - (i1 : ℚ) * 8 + (rand (forecastSeed combinedSeed i1) - 0.5) * 10) := by
    apply le_jround
    have h1 := (hr (forecastSeed combinedSeed i1)).1
    push_cast
    nlinarith
  have hup : jround (95 - (i2 : ℚ) * 8 + (rand (forecastSeed combinedSeed i2) - 0.5) * 10) ≤
      100 - 8 * (i2 : ℤ) := by
    apply jround_le
    have h1 := (hr (forecastSeed combinedSeed i2)).2
    push_cast
    nlinarith
  simp only [forecastConfidence]
  omega

/-- Claim C7 counterexample: with jitter draws 0 on day 0 and 0.999 on day 1 (both
legitimate seededRandom values), confidence is 90 on day 0 and 92 on day 1, so
confidence is not monotonically non-increasing in the day index. -/
theorem c7_counterexample :
    forecastConfidence jitterRand 0 0 < forecastConfidence jitterRand 0 1 := by
  have h1 : jround (95 - ((0 : ℕ) : ℚ) * 8 + (jitterRand (forecastSeed 0 0) - 0.5) * 10) = 90 := by
    norm_num [jitterRand, forecastSeed, jround]
  have h2 : jround (95 - ((1 : ℕ) : ℚ) * 8 + (jitterRand (forecastSeed 0 1) - 0.5) * 10) = 92 := by
    norm_num [jitterRand, forecastSeed, jround]
  simp only [forecastConfidence, h1, h2]
  omega

/-- Claim C7 witness: the amended bound instantiated at the zero random source on
days 0 and 1. -/
theorem c7_witness : forecastConfidence zeroRand 0 1 - 2 ≤ forecastConfidence zeroRand 0 0 :=
  c7_confidence_jitter_bound zeroRand (fun s => ⟨le_refl 0, by norm_num [zeroRand]⟩) 0 0 1
    (by norm_num) (by norm_num)

/-- The pm25 finalConc at hour 8 in closed form: base concentration 35.4 (the target
AQI 100 sits at the top of the 51-100 band), rush-hour diurnal factor. -/
theorem pollutantFinalConc_pm25_hour8 (rand : ℤ → ℚ) (seed : ℤ) :
    pollutantFinalConc rand 100 Pollutant.pm25 seed 8 =
      35.4 * (1.1 + rand (seed + 10) * 0.3) * (0.8 + rand seed * 0.4) := by
  simp only [pollutantFinalConc]
  norm_num [epaBreakpoints, List.find?]

/-- The pm25 finalConc at hour 13 in closed form: midday diurnal factor. -/
theorem pollutantFinalConc_pm25_hour13 (rand : ℤ → ℚ) (seed : ℤ) :
    pollutantFinalConc rand 100 Pollutant.pm25 seed 13 =
      35.4 * (0.8 + rand (seed + 10) * 0.2) * (0.8 + rand seed * 0.4) := by
  simp only [pollutantFinalConc]
  norm_num [epaBreakpoints, List.find?]

/-- Claim C8: holding the seed (hence both random draws) and all other inputs equal,
the generated PM2.5 concentration at hour-of-day 8 strictly exceeds the one at
hour-of-day 13, for every random source with values in [0, 1). -/
theorem c8_pm25_rush_hour_exceeds_midday (rand : ℤ → ℚ)
    (hr : ∀ s, 0 ≤ rand s ∧ rand s < 1) (seed : ℤ) :
    generatePollutantValue rand 100 Pollutant.pm25 seed 13 <
      generatePollutantValue rand 100 Pollutant.pm25 seed 8 := by
  have e13 : generatePollutantValue rand 100 Pollutant.pm25 seed 13 =
      max 0 ((jround (pollutantFinalConc rand 100 Pollutant.pm25 seed 13) : ℤ) : ℚ) := rfl
  have e8 : generatePollutantValue rand 100 Pollutant.pm25 seed 8 =
      max 0 ((jround (pollutantFinalConc rand 100 Pollutant.pm25 seed 8) : ℤ) : ℚ) := rfl
  rw [e13, e8, pollutantFinalConc_pm25_hour13, pollutantFinalConc_pm25_hour8]
  obtain ⟨h1a, h1b⟩ := hr seed
  obtain ⟨h2a, h2b⟩ := hr (seed + 10)
  apply max_zero_cast_lt
  · apply le_jround
    push_cast
    nlinarith
  · have hab : 35.4 * (0.8 + rand (seed + 10) * 0.2) * (0.8 + rand seed * 0.4) + 1 ≤
        35.4 * (1.1 + rand (seed + 10) * 0.3) * (0.8 + rand seed * 0.4) := by
      nlinarith
    have := jround_add_one_le hab
    omega

/-- Claim C8 witness: the strict diurnal inequality at the zero random source and
seed 0, where the two concentrations are 23 and 31. -/
theorem c8_witness :
    generatePollutantValue zeroRand 100 Pollutant.pm25 0 13 <
      generatePollutantValue zeroRand 100 Pollutant.pm25 0 8 :=
  c8_pm25_rush_hour_exceeds_midday zeroRand (fun s => ⟨le_refl 0, by norm_num [zeroRand]⟩) 0

/-- Claim C1 (amended): the air-quality record for a fixed combined seed, hour index
and wall-clock hour is a pure function of the seededRandom values at the twelve
deterministically chosen seed offsets of airUsedSeeds; two random sources agreeing
there produce identical records, so two calls with the same date, location, hour
index and wall-clock hour return identical numeric HourlyRecord values. -/
theorem c1_record_pure_in_used_seeds (r r2 : ℤ → ℚ) (combinedSeed i nowHour : ℤ)
    (h : ∀ k ∈ airUsedSeeds combinedSeed i, r k = r2 k) :
    airQualityRecord r combinedSeed i nowHour = airQualityRecord r2 combinedSeed i nowHour := by
  have e1 : r (combinedSeed + i + 1) = r2 (combinedSeed + i + 1) := h _ (by simp [airUsedSeeds])
  have e2 : r (combinedSeed + i + 1 + 10) = r2 (combinedSeed + i + 1 + 10) := h _ (by simp [airUsedSeeds])
  have e3 : r (combinedSeed + i + 2) = r2 (combinedSeed + i + 2) := h _ (by simp [airUsedSeeds])
  have e4 : r (combinedSeed + i + 2 + 10) = r2 (combinedSeed + i + 2 + 10) := h _ (by simp [airUsedSeeds])
  have e5 : r (combinedSeed + i + 3) = r2 (combinedSeed + i + 3) := h _ (by simp [airUsedSeeds])
  have e6 : r (combinedSeed + i + 3 + 10) = r2 (combinedSeed + i + 3 + 10) := h _ (by simp [airUsedSeeds])
  have e7 : r (combinedSeed + i + 4) = r2 (combinedSeed + i + 4) := h _ (by simp [airUsedSeeds])
  have e8 : r (combinedSeed + i + 4 + 10) = r2 (combinedSeed + i + 4 + 10) := h _ (by simp [airUsedSeeds])
  have e9 : r (combinedSeed + i + 5) = r2 (combinedSeed + i + 5) := h _ (by simp [airUsedSeeds])
  have e10 : r (combinedSeed + i + 5 + 10) = r2 (combinedSeed + i + 5 + 10) := h _ (by simp [airUsedSeeds])
  have e11 : r (combinedSeed + i + 6) = r2 (combinedSeed + i + 6) := h _ (by simp [airUsedSeeds])
  have e12 : r (combinedSeed + i + 6 + 10) = r2 (combinedSeed + i + 6 + 10) := h _ (by simp [airUsedSeeds])
  simp only [airQualityRecord, genConcs, generatePollutantValue.eq_def, pollutantFinalConc,
    e1, e2, e3, e4, e5, e6, e7, e8, e9, e10, e11, e12]

/-- Claim C1 witness: two random sources that agree on the twelve used offsets for
combinedSeed 0, hour index 0 (and differ everywhere else) give the same record. -/
theorem c1_witness :
    airQualityRecord zeroRand 0 0 0 = airQualityRecord zeroRandVariant 0 0 0 :=
  c1_record_pure_in_used_seeds zeroRand zeroRandVariant 0 0 0 (by
    intro k hk
    simp [zeroRand, zeroRandVariant, hk])

/-- Claim C1 counterexample: with the same calendar date, location and hour index
(combinedSeed 0, index 23) but wall-clock hours 8 and 13, the two records returned
by getDashboardData on the same calendar day differ: the pm25 fields are 31 and 23,
so the records are not identical. -/
theorem c1_counterexample :
    (airQualityRecord zeroRand 0 23 8).pm25 = 31 ∧
    (airQualityRecord zeroRand 0 23 13).pm25 = 23 ∧
    airQualityRecord zeroRand 0 23 8 ≠ airQualityRecord zeroRand 0 23 13 := by
  have e8 : (airQualityRecord zeroRand 0 23 8).pm25 = 31 := by
    simp only [airQualityRecord, genConcs, generatePollutantValue.eq_def, pollutantFinalConc,
      hourOfDay, zeroRand]
    norm_num [epaBreakpoints, List.find?, jround]
  have e13 : (airQualityRecord zeroRand 0 23 13).pm25 = 23 := by
    simp only [airQualityRecord, genConcs, generatePollutantValue.eq_def, pollutantFinalConc,
      hourOfDay, zeroRand]
    norm_num [epaBreakpoints, List.find?, jround]
  refine ⟨e8, e13, fun hcontra => ?_⟩
  have := congrArg AirRecord.pm25 hcontra
  rw [e8, e13] at this
  norm_num at this

end Zephra
